import Mathlib

/-!
Shallow embedding of the conversation-state subsystem of the tsassistant
backend (backend/services.py, backend/utils.py, backend/models.py,
backend/config.py).  On-disk JSON files and the process-wide memory cache
are modelled as association lists inside an explicit `ServerState`; the
external completion collaborator is a function parameter; fallible steps
return `Except`.  Python `dict` reads are first-match lookups, Python
`dict.update` / item assignment are modelled by `dict_update` / `assocSet`
(which agree with Python on every lookup).
-/

namespace TSAssistant

/-- A JSON scalar value as it appears in the per-conversation config files
(`null`, strings, numbers; numbers are modelled as rationals). -/
inductive JVal : Type
  | null : JVal
  | str : String → JVal
  | num : ℚ → JVal
  deriving DecidableEq, Repr

/-- A parsed JSON object (a Python dict), as an association list. -/
abbrev Dict := List (String × JVal)

/-- Lookup in an association list (Python `d[k]` / `d.get(k)`). -/
def assocLookup {α : Type} (l : List (String × α)) (k : String) : Option α :=
  match l.find? (fun p => p.1 == k) with
  | some p => some p.2
  | none => none

/-- Overwrite one key (Python `d[k] = v`), observationally via `assocLookup`. -/
def assocSet {α : Type} (l : List (String × α)) (k : String) (v : α) :
    List (String × α) :=
  (k, v) :: l.filter (fun p => p.1 != k)

/-- Remove one key (Python `del d[k]` / file removal). -/
def assocRemove {α : Type} (l : List (String × α)) (k : String) :
    List (String × α) :=
  l.filter (fun p => p.1 != k)

/-- Python `base.update(upd)`: keys of `upd` win on lookup. -/
def dict_update (base upd : Dict) : Dict := upd ++ base

/-- Python `len` on a string (code points). -/
def strLen (s : String) : ℕ := s.data.length

/-- Python `s[:n]`. -/
def strTake (s : String) (n : ℕ) : String := String.mk (s.data.take n)

/-- Python `s[n:]`. -/
def strDrop (s : String) (n : ℕ) : String := String.mk (s.data.drop n)

/-- Python `s[:-n]` (drop the last `n` code points). -/
def strDropRight (s : String) (n : ℕ) : String :=
  String.mk (s.data.take (s.data.length - n))

/-- Python `s.startswith(pre)`. -/
def strStartsWith (s pre : String) : Bool := pre.data.isPrefixOf s.data

/-- Python `s.endswith(suf)`. -/
def strEndsWith (s suf : String) : Bool := suf.data.isSuffixOf s.data

/-- The ASCII whitespace characters stripped by Python `str.strip()`. -/
def pyWhitespace (c : Char) : Bool :=
  c == Char.ofNat 32 || c == Char.ofNat 9 || c == Char.ofNat 10 ||
  c == Char.ofNat 13 || c == Char.ofNat 11 || c == Char.ofNat 12

/-- Python `s.strip()`. -/
def strTrim (s : String) : String :=
  String.mk (((s.data.dropWhile pyWhitespace).reverse.dropWhile
    pyWhitespace).reverse)

/-- Python `s.lower()` (ASCII letters). -/
def strToLower (s : String) : String := String.mk (s.data.map Char.toLower)

/-- A stored conversation turn: `HumanMessage` or `AIMessage` (langchain). -/
inductive Message : Type
  | human : String → Message
  | ai : String → Message
  deriving DecidableEq, Repr

/-- One serialized transcript entry: the `{"type": ..., "content": ...}`
objects written by `save_conversation_history`. -/
structure SerMsg where
  type : String
  content : String
  deriving DecidableEq, Repr

/-- A file on disk: either parsed JSON content or unparseable bytes
(`json.JSONDecodeError` on read). -/
inductive FsFile (α : Type) : Type
  | parsed : α → FsFile α
  | malformed : FsFile α
  deriving DecidableEq, Repr

/-- Serialization performed by `utils.save_conversation_history`:
`HumanMessage ↦ {"type": "human"}`, `AIMessage ↦ {"type": "ai"}`. -/
def serializeHistory (msgs : List Message) : List SerMsg :=
  msgs.map fun m =>
    match m with
    | .human c => ⟨"human", c⟩
    | .ai c => ⟨"ai", c⟩

/-- `utils.save_conversation_history`: writes the full (unwindowed) message
list of the memory as a JSON array. -/
def save_conversation_history (msgs : List Message) : FsFile (List SerMsg) :=
  .parsed (serializeHistory msgs)

/-- Reconstruction loop of `utils.load_conversation_history`: `"human"` and
`"ai"` entries are rebuilt, entries of any other type are skipped. -/
def reconstructMessages (entries : List SerMsg) : List Message :=
  entries.filterMap fun e =>
    if e.type = "human" then some (.human e.content)
    else if e.type = "ai" then some (.ai e.content)
    else none

/-- `utils.load_conversation_history`: `none` when the file is missing
(`FileNotFoundError`) or corrupt (`json.JSONDecodeError`), in both cases the
caller keeps a fresh window; otherwise the reconstructed messages. -/
def load_conversation_history (file : Option (FsFile (List SerMsg))) :
    Option (List Message) :=
  match file with
  | some (.parsed entries) => some (reconstructMessages entries)
  | some .malformed => none
  | none => none

/-- langchain `ConversationBufferWindowMemory` buffer:
`messages[-2*k:] if k > 0 else []` — the bounded snapshot replayed into the
prompt; storage itself is never truncated. -/
def window_buffer (k : ℕ) (msgs : List Message) : List Message :=
  if 0 < k then msgs.drop (msgs.length - 2 * k) else []

/-- langchain `memory.save_context`: appends the human turn then the
assistant turn to the stored message list. -/
def save_context (msgs : List Message) (humanInput output : String) :
    List Message :=
  msgs ++ [.human humanInput, .ai output]

/-- `models.TEMP_MIN`. -/
def TEMP_MIN : ℚ := 0

/-- `models.TEMP_MAX`. -/
def TEMP_MAX : ℚ := 2

/-- `models._clamp_temperature`: `None` falls back to the (unclamped) global
default `config.temperature`; a present value is clamped into
`[TEMP_MIN, TEMP_MAX]`. -/
def clamp_temperature (globalTemp : ℚ) : Option ℚ → ℚ
  | none => globalTemp
  | some t => max TEMP_MIN (min TEMP_MAX t)

/-- One entry of `ChatRequest.messages` (a `{"role", "content"}` dict), also
the shape returned by `get_conversation_messages`. -/
structure InMessage where
  role : String
  content : String
  deriving DecidableEq, Repr

/-- `models.ChatRequest` after pydantic parsing. -/
structure ChatRequest where
  messages : List InMessage
  conversation_id : String
  model_name : Option String
  system_directive : Option String
  temperature : Option ℚ
  tool_width : Option ℕ
  tool_height : Option ℕ
  deriving DecidableEq, Repr

/-- The ambient configuration of a request: `config.ChatbotConfig` fields,
the default model derived from app settings
(`get_default_model_from_settings`), the content of the first existing
`DEFAULT_SYSTEM_PATHS` file (if any), and the current wall-clock time. -/
structure ChatEnv where
  global_temperature : ℚ
  memory_window_size : ℕ
  default_model : String
  default_system_prompt : Option String
  now : ℚ
  deriving DecidableEq, Repr

/-- The mutable world handle_chat runs against: the process-wide
`memory_cache` (id ↦ full message list of the cached memory), the
`backend/conversations/history/<id>.json` files and the
`backend/conversations/<id>/config.json` files. -/
structure ServerState where
  memoryCache : List (String × List Message)
  historyFiles : List (String × FsFile (List SerMsg))
  configFiles : List (String × FsFile Dict)
  deriving DecidableEq, Repr

/-- Error outcomes of a chat request (each maps to one raise site). -/
inductive ChatError : Type
  | corruptConfig
  | keyError (key : String)
  | typeError
  | noUserMessage
  | systemPromptMissing
  | completionError
  deriving DecidableEq, Repr

/-- The default config record built by `load_conversation_config` when no
config file exists. -/
def default_conversation_config (globalTemp : ℚ) (defaultModel : String) :
    Dict :=
  [("model_name", .str defaultModel), ("system_directive", .null),
   ("temperature", .num globalTemp)]

/-- `services.load_conversation_config`: returns the parsed file when it
exists; a `json.JSONDecodeError` on a malformed file propagates (there is no
try/except on this path); with no file it returns the default record. -/
def load_conversation_config (globalTemp : ℚ) (defaultModel : String)
    (cfgFile : Option (FsFile Dict)) : Except ChatError Dict :=
  match cfgFile with
  | some (.parsed d) => .ok d
  | some .malformed => .error .corruptConfig
  | none => .ok (default_conversation_config globalTemp defaultModel)

/-- `current_model = request.model_name or stored_cfg["model_name"]`:
Python `or` short-circuits, so the stored dict is only read (and can only
raise `KeyError`) when the request value is falsy (`None` or `""`). -/
def resolve_model (reqModel : Option String) (stored : Dict) :
    Except ChatError JVal :=
  match reqModel with
  | some m =>
    if m = "" then
      match assocLookup stored "model_name" with
      | some v => .ok v
      | none => .error (.keyError "model_name")
    else .ok (.str m)
  | none =>
    match assocLookup stored "model_name" with
    | some v => .ok v
    | none => .error (.keyError "model_name")

/-- `current_temperature = _clamp_temperature(request.temperature if
request.temperature is not None else stored_cfg["temperature"])`: the
conditional expression short-circuits; a stored JSON `null` reaches the
clamp as `None`; a stored string raises `TypeError` inside `max`/`min`. -/
def resolve_temperature (globalTemp : ℚ) (reqTemp : Option ℚ)
    (stored : Dict) : Except ChatError ℚ :=
  match reqTemp with
  | some t => .ok (clamp_temperature globalTemp (some t))
  | none =>
    match assocLookup stored "temperature" with
    | some .null => .ok (clamp_temperature globalTemp none)
    | some (.num q) => .ok (clamp_temperature globalTemp (some q))
    | some (.str _) => .error .typeError
    | none => .error (.keyError "temperature")

/-- `custom_directive = request.system_directive if request.system_directive
is not None else stored_cfg.get("system_directive")`; a stored JSON `null`
and a missing key are both Python `None`. -/
def resolve_directive (reqDirective : Option String) (stored : Dict) :
    Option JVal :=
  match reqDirective with
  | some d => some (.str d)
  | none =>
    match assocLookup stored "system_directive" with
    | some .null => none
    | some v => some v
    | none => none

/-- Python truthiness of a JSON scalar. -/
def jvalTruthy : JVal → Bool
  | .null => false
  | .str s => !(s == "")
  | .num q => !(q == 0)

/-- Python `str` conversion of a JSON scalar (for prompt interpolation). -/
def jvalToString : JVal → String
  | .null => "None"
  | .str s => s
  | .num q => toString q

/-- The system-message selection of `handle_chat`: a truthy
`custom_directive` is used verbatim; otherwise the first existing
`DEFAULT_SYSTEM_PATHS` file is read, and a missing file is an HTTP 500. -/
def effective_system_message (custom : Option JVal)
    (defaultPrompt : Option String) : Except ChatError String :=
  match custom with
  | some v =>
    if jvalTruthy v then .ok (jvalToString v)
    else
      match defaultPrompt with
      | some p => .ok p
      | none => .error .systemPromptMissing
  | none =>
    match defaultPrompt with
    | some p => .ok p
    | none => .error .systemPromptMissing

/-- The `merge global → stored → request` block of `ChatService.handle_chat`
(services.py lines 68-80). -/
def merge_config (globalTemp : ℚ) (defaultModel : String)
    (cfgFile : Option (FsFile Dict)) (reqModel : Option String)
    (reqTemp : Option ℚ) (reqDirective : Option String) :
    Except ChatError (JVal × ℚ × Option JVal) :=
  match load_conversation_config globalTemp defaultModel cfgFile with
  | .error e => .error e
  | .ok stored =>
    match resolve_model reqModel stored with
    | .error e => .error e
    | .ok m =>
      match resolve_temperature globalTemp reqTemp stored with
      | .error e => .error e
      | .ok t => .ok (m, t, resolve_directive reqDirective stored)

/-- The get-or-create step of `handle_chat`: on a cache miss a fresh memory
is constructed, inserted, and hydrated from the history file (missing or
corrupt file leaves it empty). Returns the live message list and the
updated cache. -/
def hydrate (st : ServerState) (cid : String) :
    List Message × List (String × List Message) :=
  match assocLookup st.memoryCache cid with
  | some msgs => (msgs, st.memoryCache)
  | none =>
    ((load_conversation_history (assocLookup st.historyFiles cid)).getD [],
     assocSet st.memoryCache cid
       ((load_conversation_history (assocLookup st.historyFiles cid)).getD []))

/-- Extraction of the trailing user message: the request fails with HTTP 400
("No user message provided") unless the last entry has role `"user"`. -/
def last_user_message (msgs : List InMessage) : Option String :=
  match msgs.getLast? with
  | some m => if m.role = "user" then some m.content else none
  | none => none

/-- The double-quote character, as a string. -/
def dquote : String := String.mk [Char.ofNat 34]

/-- The final response post-processing of `handle_chat`: strip one leading
and one trailing double quote when both are present and the string has at
least two characters. -/
def strip_outer_quotes (s : String) : String :=
  if 2 ≤ strLen s ∧ strStartsWith s dquote ∧ strEndsWith s dquote then
    strDropRight (strDrop s 1) 1
  else s

/-- `ChatService._update_conversation_timestamp`: build the in-flight record,
overlay the existing config file on top of it (existing keys win; a corrupt
or missing file contributes nothing), unconditionally set
`last_message_time`, and write the file back. -/
def update_conversation_timestamp (now : ℚ) (st : ServerState) (cid : String)
    (model : JVal) (directive : Option JVal) (temperature : ℚ) :
    ServerState :=
  { st with configFiles :=
      assocSet st.configFiles cid (.parsed
        (assocSet
          (dict_update
            [("conversation_id", .str cid), ("model_name", model),
             ("system_directive",
               match directive with
               | some v => v
               | none => .null),
             ("temperature", .num temperature)]
            (match assocLookup st.configFiles cid with
             | some (.parsed d) => d
             | some .malformed => []
             | none => []))
          "last_message_time" (.num now))) }

/-- `ChatService.handle_chat`, the full pipeline: config merge, memory
get-or-create (cache hydration happens before any later failure), trailing
user-message check, system-message selection, the external completion call
(the sole collaborator), then — only on success — `save_context`,
`save_conversation_history`, the timestamp update, and quote stripping of
the returned text.  The returned state carries every mutation performed up
to the point of failure. -/
def handle_chat (env : ChatEnv)
    (completion : JVal → ℚ → String → List Message → String →
      Except Unit String)
    (req : ChatRequest) (st : ServerState) :
    ServerState × Except ChatError String :=
  match merge_config env.global_temperature env.default_model
      (assocLookup st.configFiles req.conversation_id)
      req.model_name req.temperature req.system_directive with
  | .error e => (st, .error e)
  | .ok (current_model, current_temperature, custom_directive) =>
    match last_user_message req.messages with
    | none =>
      ({ st with memoryCache := (hydrate st req.conversation_id).2 },
       .error .noUserMessage)
    | some human_input =>
      match effective_system_message custom_directive
          env.default_system_prompt with
      | .error e =>
        ({ st with memoryCache := (hydrate st req.conversation_id).2 },
         .error e)
      | .ok system_message =>
        match completion current_model current_temperature system_message
            (window_buffer env.memory_window_size
              (hydrate st req.conversation_id).1) human_input with
        | .error _ =>
          ({ st with memoryCache := (hydrate st req.conversation_id).2 },
           .error .completionError)
        | .ok ai_response =>
          (update_conversation_timestamp env.now
            { memoryCache :=
                assocSet (hydrate st req.conversation_id).2
                  req.conversation_id
                  (save_context (hydrate st req.conversation_id).1
                    human_input ai_response)
              historyFiles :=
                assocSet st.historyFiles req.conversation_id
                  (save_conversation_history
                    (save_context (hydrate st req.conversation_id).1
                      human_input ai_response))
              configFiles := st.configFiles }
            req.conversation_id current_model custom_directive
            current_temperature,
           .ok (strip_outer_quotes ai_response))

/-- `ConversationService.get_conversation_messages`: load the transcript into
a temporary memory (missing or corrupt file → HTTP 404) and render the
messages with roles `"user"` / `"assistant"`. -/
def get_conversation_messages (st : ServerState) (cid : String) :
    Except Unit (List InMessage) :=
  match load_conversation_history (assocLookup st.historyFiles cid) with
  | none => .error ()
  | some msgs =>
    .ok (msgs.map fun m =>
      match m with
      | .human c => (⟨"user", c⟩ : InMessage)
      | .ai c => (⟨"assistant", c⟩ : InMessage))

/-- Error outcomes of title generation that are raised (not absorbed). -/
inductive TitleError : Type
  | noApiKey
  | noApiBase
  deriving DecidableEq, Repr

/-- The payload returned by title generation: the title and the optional
explanatory `detail` field. -/
structure TitleResult where
  title : String
  detail : Option String
  deriving DecidableEq, Repr

/-- Strip every double-quote and apostrophe character (Python
`.replace(chr(34), "").replace(chr(39), "")`). -/
def remove_quote_chars (s : String) : String :=
  String.mk (s.data.filter fun c =>
    !(c == Char.ofNat 34 || c == Char.ofNat 39))

/-- `utils.generate_chat_title` viewed through the LLM-call oracle
`llmResult`: any exception yields `"Error Title " + id[:4]`; an empty
cleaned response yields `"Chat " + id[:8]`; otherwise a leading `"title:"`
prefix (case-insensitively) is dropped and the result is truncated to 60
characters with a `"..."` suffix. -/
def generate_chat_title (cid : String) (llmResult : Except Unit String) :
    String :=
  match llmResult with
  | .error _ => "Error Title " ++ strTake cid 4
  | .ok raw =>
    let generated_title := remove_quote_chars (strTrim raw)
    if generated_title = "" then "Chat " ++ strTake cid 8
    else
      let t1 :=
        if strStartsWith (strToLower generated_title) "title:" then
          strTrim (strDrop generated_title 6)
        else generated_title
      if 60 < strLen t1 then strTake t1 57 ++ "..." else t1

/-- `ConversationService.generate_conversation_title`: a missing transcript
returns the fallback title with an explanatory `detail` (no error); a
missing API key or API base raises an HTTP 500; otherwise the generated
title (replaced by the fallback when empty, whitespace, or an
`"Error Title"` result) is merged into the config file together with
`last_title_update` and returned. -/
def generate_conversation_title (apiKey apiBase : String) (now : ℚ)
    (llmResult : Except Unit String) (st : ServerState) (cid : String) :
    ServerState × Except TitleError TitleResult :=
  match assocLookup st.historyFiles cid with
  | none =>
    (st, .ok ⟨"Chat " ++ strTake cid 8,
              some "History not found for title generation."⟩)
  | some _ =>
    if apiKey = "" then (st, .error .noApiKey)
    else if apiBase = "" then (st, .error .noApiBase)
    else
      let raw_title := generate_chat_title cid llmResult
      let new_title :=
        if raw_title = "" || strTrim raw_title = "" ||
            strStartsWith raw_title "Error Title" then
          "Chat " ++ strTake cid 8
        else raw_title
      let existing : Dict :=
        match assocLookup st.configFiles cid with
        | some (.parsed d) => d
        | some .malformed => [("id", .str cid)]
        | none => [("id", .str cid)]
      ({ st with configFiles :=
          assocSet st.configFiles cid (.parsed
            (assocSet (assocSet existing "title" (.str (strTrim new_title)))
              "last_title_update" (.num now))) },
       .ok ⟨strTrim new_title, none⟩)

/-- `ConversationService.delete_conversation`: remove the config directory
and the history file when present; 404 when neither existed; evict the
memory-cache entry only on success. -/
def delete_conversation (st : ServerState) (cid : String) :
    ServerState × Except Unit Unit :=
  let configExisted := (assocLookup st.configFiles cid).isSome
  let st1 :=
    if configExisted then
      { st with configFiles := assocRemove st.configFiles cid }
    else st
  let historyExisted := (assocLookup st1.historyFiles cid).isSome
  let st2 :=
    if historyExisted then
      { st1 with historyFiles := assocRemove st1.historyFiles cid }
    else st1
  if configExisted || historyExisted then
    (if (assocLookup st2.memoryCache cid).isSome then
      { st2 with memoryCache := assocRemove st2.memoryCache cid }
     else st2, .ok ())
  else (st2, .error ())

deriving instance DecidableEq for Except

/-- Messages of a sequence of exchanges (each a human input paired with the
assistant reply), in order. -/
def exchanges_to_messages (pairs : List (String × String)) : List Message :=
  pairs.flatMap fun p => [.human p.1, .ai p.2]

/-- Appending a sequence of exchanges to a memory via `save_context`. -/
def append_exchanges (init : List Message)
    (pairs : List (String × String)) : List Message :=
  pairs.foldl (fun acc p => save_context acc p.1 p.2) init

/-- A sample request environment: global temperature 0.7, window size 10. -/
def env0 : ChatEnv := ⟨7/10, 10, "anthropic/claude-3.5-haiku", some "SYS", 111⟩

/-- A sample well-formed persisted conversation config. -/
def cfg0 : Dict :=
  [("model_name", JVal.str "m"), ("system_directive", JVal.null),
   ("temperature", JVal.null)]

/-- A sample chat request for conversation `"c1"` with one user message. -/
def req0 : ChatRequest :=
  ⟨[⟨"user", "hello"⟩], "c1", none, none, none, none, none⟩

/-- A state whose config file for `"c1"` is corrupt JSON. -/
def stBad : ServerState := ⟨[], [], [("c1", FsFile.malformed)]⟩

/-- A state with a corrupt history file and a well-formed config for
`"c1"`. -/
def stHist : ServerState :=
  ⟨[], [("c1", FsFile.malformed)], [("c1", FsFile.parsed cfg0)]⟩

/-- A completion text wrapped in double quotes. -/
def quotedHi : String := dquote ++ "hi" ++ dquote

/-! Helper lemmas about the association-list dictionaries. -/

theorem assocLookup_nil {α : Type} (k : String) :
    assocLookup ([] : List (String × α)) k = none := rfl

theorem assocLookup_cons {α : Type} (a : String × α) (l : List (String × α))
    (k : String) :
    assocLookup (a :: l) k =
      if a.1 = k then some a.2 else assocLookup l k := by
  by_cases h : a.1 = k <;>
    simp [assocLookup, List.find?_cons, h, beq_iff_eq]

theorem assocLookup_set_self {α : Type} (l : List (String × α)) (k : String)
    (v : α) : assocLookup (assocSet l k v) k = some v := by
  simp [assocSet, assocLookup_cons]

theorem assocLookup_filter_ne {α : Type} (l : List (String × α))
    (k q : String) (h : q ≠ k) :
    assocLookup (l.filter fun p => p.1 != k) q = assocLookup l q := by
  induction l with
  | nil => rfl
  | cons a tl ih =>
    by_cases hak : a.1 = k
    · simp [List.filter_cons, hak, assocLookup_cons, ih, Ne.symm h]
    · simp [List.filter_cons, hak, assocLookup_cons, ih]

theorem assocLookup_set_ne {α : Type} (l : List (String × α)) (k q : String)
    (v : α) (h : q ≠ k) :
    assocLookup (assocSet l k v) q = assocLookup l q := by
  simp [assocSet, assocLookup_cons, Ne.symm h, assocLookup_filter_ne l k q h]

theorem assocLookup_append {α : Type} (a b : List (String × α)) (k : String) :
    assocLookup (a ++ b) k =
      match assocLookup a k with
      | some v => some v
      | none => assocLookup b k := by
  induction a with
  | nil => simp [assocLookup_nil]
  | cons x tl ih =>
    by_cases hx : x.1 = k
    · simp [assocLookup_cons, hx]
    · simp [assocLookup_cons, hx, ih]

/-! Helper lemmas about transcript serialization and the memory window. -/

/-- Deserialization inverts serialization message by message. -/
theorem reconstruct_serialize (msgs : List Message) :
    reconstructMessages (serializeHistory msgs) = msgs := by
  induction msgs with
  | nil => rfl
  | cons m tl ih =>
    cases m <;> simp [serializeHistory, reconstructMessages,
      List.filterMap_cons] <;>
      simpa [serializeHistory, reconstructMessages] using ih

/-- The timestamp update only rewrites the config file. -/
theorem update_timestamp_historyFiles (now : ℚ) (st : ServerState)
    (cid : String) (model : JVal) (directive : Option JVal) (t : ℚ) :
    (update_conversation_timestamp now st cid model directive t).historyFiles
      = st.historyFiles := rfl

/-- Inversion of a successful `handle_chat` run: some trailing user message
and some completion text exist, the response is the quote-stripped
completion text, and the history file now holds the serialized extended
message list. -/
theorem handle_chat_ok_spec (env : ChatEnv)
    (completion : JVal → ℚ → String → List Message → String →
      Except Unit String)
    (req : ChatRequest) (st st1 : ServerState) (r : String)
    (h : handle_chat env completion req st = (st1, .ok r)) :
    ∃ human_input ai_response,
      last_user_message req.messages = some human_input ∧
      r = strip_outer_quotes ai_response ∧
      st1.historyFiles = assocSet st.historyFiles req.conversation_id
        (save_conversation_history
          (save_context (hydrate st req.conversation_id).1 human_input
            ai_response)) := by
  unfold handle_chat at h
  split at h
  · simp at h
  · split at h
    · simp at h
    · split at h
      · simp at h
      · split at h
        · simp at h
        · rename_i xm cm ct cd hmerge xl hi hlast xs sm hsm xc ai hcompEq
          obtain ⟨h1, h2⟩ := Prod.mk.inj h
          refine ⟨hi, ai, hlast, ?_, ?_⟩
          · injection h2 with h2
            exact h2.symm
          · rw [← h1]
            rfl

/-- C1: on a chat call whose completion collaborator fails, the error is
surfaced to the caller, the on-disk transcript and config files are
untouched, and the in-memory cache is at most hydrated from disk — the
(human, assistant) pair is appended neither to memory nor to disk. -/
theorem chat_completion_failure_atomicity (env : ChatEnv)
    (completion : JVal → ℚ → String → List Message → String →
      Except Unit String)
    (req : ChatRequest) (st st1 : ServerState)
    (res : Except ChatError String)
    (hcomp : ∀ m t s hist i, completion m t s hist i = Except.error ())
    (h : handle_chat env completion req st = (st1, res)) :
    (∃ e, res = Except.error e) ∧
    st1.historyFiles = st.historyFiles ∧
    st1.configFiles = st.configFiles ∧
    (st1.memoryCache = st.memoryCache ∨
     st1.memoryCache = assocSet st.memoryCache req.conversation_id
       ((load_conversation_history
          (assocLookup st.historyFiles req.conversation_id)).getD [])) := by
  unfold handle_chat at h
  split at h
  · obtain ⟨rfl, rfl⟩ := Prod.mk.inj h
    exact ⟨⟨_, rfl⟩, rfl, rfl, Or.inl rfl⟩
  · split at h
    all_goals (try (first
      | (obtain ⟨rfl, rfl⟩ := Prod.mk.inj h
         refine ⟨⟨_, rfl⟩, rfl, rfl, ?_⟩
         rcases hmem : assocLookup st.memoryCache req.conversation_id with _ | msgs
         · right; simp [hydrate, hmem]
         · left; simp [hydrate, hmem])))
    split at h
    all_goals (try (first
      | (obtain ⟨rfl, rfl⟩ := Prod.mk.inj h
         refine ⟨⟨_, rfl⟩, rfl, rfl, ?_⟩
         rcases hmem : assocLookup st.memoryCache req.conversation_id with _ | msgs
         · right; simp [hydrate, hmem]
         · left; simp [hydrate, hmem])))
    split at h
    · obtain ⟨rfl, rfl⟩ := Prod.mk.inj h
      refine ⟨⟨_, rfl⟩, rfl, rfl, ?_⟩
      rcases hmem : assocLookup st.memoryCache req.conversation_id with _ | msgs
      · right; simp [hydrate, hmem]
      · left; simp [hydrate, hmem]
    · rename_i ai hok
      rw [hcomp] at hok
      simp at hok

/-- Witness for C1: a failing collaborator on a concrete state yields an
error and leaves files untouched. -/
theorem chat_completion_failure_atomicity_witness :
    (∃ e, (handle_chat env0 (fun _ _ _ _ _ => Except.error ()) req0
        stHist).2 = Except.error e) ∧
    (handle_chat env0 (fun _ _ _ _ _ => Except.error ()) req0
        stHist).1.historyFiles = stHist.historyFiles ∧
    (handle_chat env0 (fun _ _ _ _ _ => Except.error ()) req0
        stHist).1.configFiles = stHist.configFiles ∧
    ((handle_chat env0 (fun _ _ _ _ _ => Except.error ()) req0
        stHist).1.memoryCache = stHist.memoryCache ∨
     (handle_chat env0 (fun _ _ _ _ _ => Except.error ()) req0
        stHist).1.memoryCache = assocSet stHist.memoryCache
       req0.conversation_id
       ((load_conversation_history
          (assocLookup stHist.historyFiles req0.conversation_id)).getD
         [])) :=
  chat_completion_failure_atomicity env0 (fun _ _ _ _ _ =>
      Except.error ()) req0 stHist _ _ (fun _ _ _ _ _ => rfl) rfl

/-- C2: effective-config resolution follows request > persisted > global
precedence for model name, temperature and system directive (in-range
values, as guaranteed past input validation, pass through unchanged),
including the spec's two concrete temperature scenarios: persisted 1.0 with
request null resolves to 1.0, and request 1.5 resolves to 1.5 regardless of
the persisted value. -/
theorem chat_config_merge_precedence :
    (∀ (g t : ℚ) (stored : Dict), 0 ≤ t → t ≤ 2 →
       resolve_temperature g (some t) stored = .ok t) ∧
    (∀ (g q : ℚ) (stored : Dict), 0 ≤ q → q ≤ 2 →
       assocLookup stored "temperature" = some (.num q) →
       resolve_temperature g none stored = .ok q) ∧
    (∀ (g : ℚ) (stored : Dict),
       assocLookup stored "temperature" = some .null →
       resolve_temperature g none stored = .ok g) ∧
    (resolve_temperature (7/10) none [("temperature", JVal.num 1)] =
       .ok 1) ∧
    (∀ stored : Dict,
       resolve_temperature (7/10) (some (3/2)) stored = .ok (3/2)) ∧
    (∀ (m : String) (stored : Dict), m ≠ "" →
       resolve_model (some m) stored = .ok (.str m)) ∧
    (∀ (v : JVal) (stored : Dict),
       assocLookup stored "model_name" = some v →
       resolve_model none stored = .ok v) ∧
    (∀ (g : ℚ) (dm : String),
       resolve_model none (default_conversation_config g dm) =
         .ok (.str dm)) ∧
    (∀ (d : String) (stored : Dict),
       resolve_directive (some d) stored = some (.str d)) ∧
    (∀ (s : String) (stored : Dict),
       assocLookup stored "system_directive" = some (.str s) →
       resolve_directive none stored = some (.str s)) ∧
    (∀ p : String, effective_system_message none (some p) = .ok p) := by
  refine ⟨?_, ?_, ?_, ?_, ?_, ?_, ?_, ?_, ?_, ?_, ?_⟩
  · intro g t stored h0 h2
    simp [resolve_temperature, clamp_temperature, TEMP_MIN, TEMP_MAX,
      min_eq_right h2, max_eq_right h0]
  · intro g q stored h0 h2 hq
    simp [resolve_temperature, hq, clamp_temperature, TEMP_MIN, TEMP_MAX,
      min_eq_right h2, max_eq_right h0]
  · intro g stored hq
    simp [resolve_temperature, hq, clamp_temperature]
  · norm_num [resolve_temperature, clamp_temperature, assocLookup_cons,
      TEMP_MIN, TEMP_MAX, max_def, min_def]
  · intro stored
    norm_num [resolve_temperature, clamp_temperature, TEMP_MIN, TEMP_MAX,
      max_def, min_def]
  · intro m stored hm
    simp [resolve_model, hm]
  · intro v stored hv
    simp [resolve_model, hv]
  · intro g dm
    simp [resolve_model, default_conversation_config, assocLookup_cons]
  · intro d stored
    simp [resolve_directive]
  · intro s stored hs
    simp [resolve_directive, hs]
  · intro p
    simp [effective_system_message]

/-- Witness for C2 at the spec's concrete scenarios. -/
theorem chat_config_merge_precedence_witness :
    resolve_temperature (7/10) (some 1) [] = .ok 1 ∧
    resolve_temperature (7/10) none [("temperature", JVal.num 1)] = .ok 1 ∧
    resolve_temperature (7/10) none [("temperature", JVal.null)] =
      .ok (7/10) ∧
    resolve_temperature (7/10) (some (3/2)) [("temperature", JVal.num 1)] =
      .ok (3/2) ∧
    resolve_model (some "openai/gpt-4.1") [("model_name", JVal.str "m")] =
      .ok (.str "openai/gpt-4.1") ∧
    resolve_model none [("model_name", JVal.str "m")] = .ok (.str "m") ∧
    resolve_directive (some "be brief") [] = some (.str "be brief") ∧
    effective_system_message none (some "SYS") = .ok "SYS" :=
  ⟨chat_config_merge_precedence.1 (7/10) 1 [] (by norm_num) (by norm_num),
   chat_config_merge_precedence.2.1 (7/10) 1 [("temperature", JVal.num 1)]
     (by norm_num) (by norm_num) rfl,
   chat_config_merge_precedence.2.2.1 (7/10)
     [("temperature", JVal.null)] rfl,
   chat_config_merge_precedence.2.2.2.2.1 [("temperature", JVal.num 1)],
   chat_config_merge_precedence.2.2.2.2.2.1 "openai/gpt-4.1"
     [("model_name", JVal.str "m")] (by decide),
   chat_config_merge_precedence.2.2.2.2.2.2.1 (JVal.str "m")
     [("model_name", JVal.str "m")] rfl,
   chat_config_merge_precedence.2.2.2.2.2.2.2.2.1 "be brief" [],
   chat_config_merge_precedence.2.2.2.2.2.2.2.2.2.2 "SYS"⟩

/-- Counterexample to C3 as stated: a malformed config file makes the chat
request fail with the propagated JSON error; there is no fallback to the
default configuration. -/
theorem malformed_config_crashes_chat :
    handle_chat env0 (fun _ _ _ _ _ => Except.ok "reply") req0 stBad =
      (stBad, .error .corruptConfig) := rfl

/-- C3 (amended): a malformed per-conversation config file makes the chat
request fail with the propagated error (no fallback to defaults), while a
malformed transcript file is treated as no history: the hydrated window is
fresh (unless a live window was already cached) and the chat proceeds,
committing only the new exchange. -/
theorem malformed_json_handling_amended :
    (∀ (env : ChatEnv)
       (completion : JVal → ℚ → String → List Message → String →
         Except Unit String)
       (req : ChatRequest) (st : ServerState),
       assocLookup st.configFiles req.conversation_id = some .malformed →
       handle_chat env completion req st = (st, .error .corruptConfig)) ∧
    (∀ (st : ServerState) (cid : String),
       assocLookup st.historyFiles cid = some .malformed →
       (hydrate st cid).1 = [] ∨
       assocLookup st.memoryCache cid = some ((hydrate st cid).1)) ∧
    (handle_chat env0 (fun _ _ _ _ _ => Except.ok "reply") req0 stHist =
      (⟨[("c1", [Message.human "hello", Message.ai "reply"])],
        [("c1", FsFile.parsed [⟨"human", "hello"⟩, ⟨"ai", "reply"⟩])],
        [("c1", FsFile.parsed
          (assocSet (dict_update
            [("conversation_id", JVal.str "c1"),
             ("model_name", JVal.str "m"),
             ("system_directive", JVal.null),
             ("temperature", JVal.num (7/10))]
            cfg0) "last_message_time" (JVal.num 111)))]⟩,
       .ok "reply")) := by
  refine ⟨?_, ?_, rfl⟩
  · intro env completion req st h
    simp [handle_chat, merge_config, load_conversation_config, h]
  · intro st cid h
    rcases hmem : assocLookup st.memoryCache cid with _ | msgs
    · left
      simp [hydrate, hmem, h, load_conversation_history]
    · right
      simp [hydrate, hmem]

/-- Witness for the amended C3 at concrete corrupt-config and
corrupt-history states. -/
theorem malformed_json_handling_amended_witness :
    handle_chat env0 (fun _ _ _ _ _ => Except.ok "reply") req0 stBad =
      (stBad, .error .corruptConfig) ∧
    ((hydrate stHist "c1").1 = [] ∨
     assocLookup stHist.memoryCache "c1" = some ((hydrate stHist "c1").1)) :=
  ⟨malformed_json_handling_amended.1 env0 (fun _ _ _ _ _ =>
      Except.ok "reply") req0 stBad rfl,
   malformed_json_handling_amended.2.1 stHist "c1" rfl⟩

/-- A string starting with a given prefix, witnessed by a data split. -/
theorem strStartsWith_of_append (pre rest s : String)
    (h : s.data = pre.data ++ rest.data) : strStartsWith s pre = true := by
  rw [strStartsWith, h, List.isPrefixOf_iff_prefix]
  exact List.prefix_append _ _

/-- Counterexample to C4 as stated: with a transcript present but no API
key configured, title generation propagates an error instead of returning
the generic fallback title. -/
theorem title_missing_api_key_counterexample :
    generate_conversation_title "" "base" 111 (.ok "A Nice Title")
      stHist "c1" = (stHist, .error .noApiKey) := rfl

/-- C4 (amended): a missing transcript yields the fallback title with an
explanatory status; a network error or an empty result during generation
yields the fallback title without error; but a missing API key (or API
base) raises an HTTP 500 that propagates to the caller. -/
theorem title_generation_failure_routing_amended :
    (∀ (key base : String) (now : ℚ) (llm : Except Unit String)
       (st : ServerState) (cid : String),
       assocLookup st.historyFiles cid = none →
       generate_conversation_title key base now llm st cid =
         (st, .ok ⟨"Chat " ++ strTake cid 8,
                   some "History not found for title generation."⟩)) ∧
    (∀ (base : String) (now : ℚ) (llm : Except Unit String)
       (st : ServerState) (cid : String) (f : FsFile (List SerMsg)),
       assocLookup st.historyFiles cid = some f →
       generate_conversation_title "" base now llm st cid =
         (st, .error .noApiKey)) ∧
    (∀ (key base : String) (now : ℚ) (st : ServerState) (cid : String)
       (f : FsFile (List SerMsg)),
       key ≠ "" → base ≠ "" → assocLookup st.historyFiles cid = some f →
       (generate_conversation_title key base now (.error ()) st cid).2 =
         .ok ⟨strTrim ("Chat " ++ strTake cid 8), none⟩) ∧
    (∀ (key base : String) (now : ℚ) (st : ServerState) (cid : String)
       (f : FsFile (List SerMsg)),
       key ≠ "" → base ≠ "" → assocLookup st.historyFiles cid = some f →
       (generate_conversation_title key base now (.ok "") st cid).2 =
         .ok ⟨strTrim ("Chat " ++ strTake cid 8), none⟩) := by
  refine ⟨?_, ?_, ?_, ?_⟩
  · intro key base now llm st cid h
    simp [generate_conversation_title, h]
  · intro base now llm st cid f h
    simp [generate_conversation_title, h]
  · intro key base now st cid f hk hb h
    have hpre : strStartsWith ("Error Title " ++ strTake cid 4)
        "Error Title" = true := by
      refine strStartsWith_of_append _ (" " ++ strTake cid 4) _ ?_
      rw [String.data_append, String.data_append]
      have h1 : "Error Title ".data = "Error Title".data ++ " ".data := by
        decide
      rw [h1, List.append_assoc]
    simp [generate_conversation_title, h, hk, hb, generate_chat_title,
      hpre]
  · intro key base now st cid f hk hb h
    have hraw : generate_chat_title cid (.ok "") =
        "Chat " ++ strTake cid 8 := rfl
    simp [generate_conversation_title, h, hk, hb, hraw, ite_self]

/-- Witness for the amended C4 at concrete states: missing transcript,
missing key, network failure, and empty result. -/
theorem title_generation_failure_routing_amended_witness :
    generate_conversation_title "key" "base" 111 (.ok "T") ⟨[], [], []⟩
      "c4" = (⟨[], [], []⟩, .ok ⟨"Chat " ++ strTake "c4" 8,
        some "History not found for title generation."⟩) ∧
    generate_conversation_title "" "base" 111 (.ok "T") stHist "c1" =
      (stHist, .error .noApiKey) ∧
    (generate_conversation_title "key" "base" 111 (.error ()) stHist
      "c1").2 = .ok ⟨strTrim ("Chat " ++ strTake "c1" 8), none⟩ ∧
    (generate_conversation_title "key" "base" 111 (.ok "") stHist
      "c1").2 = .ok ⟨strTrim ("Chat " ++ strTake "c1" 8), none⟩ :=
  ⟨title_generation_failure_routing_amended.1 "key" "base" 111 (.ok "T")
     ⟨[], [], []⟩ "c4" rfl,
   title_generation_failure_routing_amended.2.1 "base" 111 (.ok "T")
     stHist "c1" FsFile.malformed rfl,
   title_generation_failure_routing_amended.2.2.1 "key" "base" 111 stHist
     "c1" FsFile.malformed (by decide) (by decide) rfl,
   title_generation_failure_routing_amended.2.2.2 "key" "base" 111 stHist
     "c1" FsFile.malformed (by decide) (by decide) rfl⟩

/-- Counterexample to C5 as stated: when the completion text is wrapped in
double quotes, the chat call returns the stripped text while the transcript
retains the quoted text, so the last transcript entry is not the returned
assistant turn. -/
theorem chat_then_fetch_quoted_counterexample :
    (handle_chat env0 (fun _ _ _ _ _ => Except.ok quotedHi) req0
      stHist).2 = .ok "hi" ∧
    get_conversation_messages
      (handle_chat env0 (fun _ _ _ _ _ => Except.ok quotedHi) req0
        stHist).1 "c1" =
      .ok [⟨"user", "hello"⟩, ⟨"assistant", quotedHi⟩] ∧
    quotedHi ≠ "hi" := by
  refine ⟨by decide, by decide, by decide⟩

/-- C5 (amended): after a successful chat, fetch-messages returns a
transcript whose last two entries are the submitted human turn and the raw
completion text, in that order; the chat call returns that text with one
pair of enclosing double quotes stripped (so the two coincide unless the
completion text both begins and ends with a double quote). -/
theorem chat_then_fetch_last_two_amended (env : ChatEnv)
    (completion : JVal → ℚ → String → List Message → String →
      Except Unit String)
    (req : ChatRequest) (st st1 : ServerState) (r : String)
    (h : handle_chat env completion req st = (st1, Except.ok r)) :
    ∃ human_input ai_response rest,
      last_user_message req.messages = some human_input ∧
      get_conversation_messages st1 req.conversation_id =
        .ok (rest ++ [⟨"user", human_input⟩, ⟨"assistant", ai_response⟩]) ∧
      r = strip_outer_quotes ai_response := by
  obtain ⟨hi, ai, hlast, hr, hfile⟩ :=
    handle_chat_ok_spec env completion req st st1 r h
  refine ⟨hi, ai,
    ((hydrate st req.conversation_id).1.map fun m =>
      match m with
      | .human c => (⟨"user", c⟩ : InMessage)
      | .ai c => (⟨"assistant", c⟩ : InMessage)), hlast, ?_, hr⟩
  rw [get_conversation_messages, hfile, assocLookup_set_self]
  simp [save_conversation_history, load_conversation_history,
    reconstruct_serialize, save_context, List.map_append]

/-- Witness for the amended C5 on a concrete successful chat run. -/
theorem chat_then_fetch_last_two_amended_witness :
    ∃ human_input ai_response rest,
      last_user_message req0.messages = some human_input ∧
      get_conversation_messages
        (handle_chat env0 (fun _ _ _ _ _ => Except.ok "reply") req0
          stHist).1 req0.conversation_id =
        .ok (rest ++ [⟨"user", human_input⟩, ⟨"assistant", ai_response⟩]) ∧
      "reply" = strip_outer_quotes ai_response :=
  chat_then_fetch_last_two_amended env0 (fun _ _ _ _ _ =>
      Except.ok "reply") req0 stHist _ "reply" rfl

/-- `save_context` folded over a pair list is the flattened exchanges. -/
theorem append_exchanges_eq (init : List Message)
    (pairs : List (String × String)) :
    append_exchanges init pairs = init ++ exchanges_to_messages pairs := by
  induction pairs generalizing init with
  | nil => simp [append_exchanges, exchanges_to_messages]
  | cons p tl ih =>
    simp [append_exchanges, exchanges_to_messages, List.foldl_cons,
      save_context] at *
    rw [ih]
    simp [save_context]

/-- Dropping `2 n` messages drops `n` whole exchanges. -/
theorem exchanges_drop (pairs : List (String × String)) (n : ℕ) :
    (exchanges_to_messages pairs).drop (2 * n) =
      exchanges_to_messages (pairs.drop n) := by
  induction pairs generalizing n with
  | nil => simp [exchanges_to_messages]
  | cons p tl ih =>
    cases n with
    | zero => simp
    | succ m =>
      have h2 : 2 * (m + 1) = (2 * m) + 1 + 1 := by ring
      simp [exchanges_to_messages, h2, List.drop_succ_cons]
      exact ih m

/-- Each exchange contributes two messages. -/
theorem exchanges_length (pairs : List (String × String)) :
    (exchanges_to_messages pairs).length = 2 * pairs.length := by
  induction pairs with
  | nil => simp [exchanges_to_messages]
  | cons p tl ih =>
    simp [exchanges_to_messages] at *
    omega

/-- C6: after appending k+5 exchanges into a window of size k, the prompt
snapshot holds exactly the k most recent exchanges while the persisted
transcript holds all k+5 of them (the window bounds only prompt
construction, never storage). -/
theorem memory_window_bound (k : ℕ) (hk : 0 < k)
    (pairs : List (String × String)) (hlen : pairs.length = k + 5) :
    window_buffer k (append_exchanges [] pairs) =
      exchanges_to_messages (pairs.drop 5) ∧
    (pairs.drop 5).length = k ∧
    save_conversation_history (append_exchanges [] pairs) =
      .parsed (serializeHistory (exchanges_to_messages pairs)) ∧
    (append_exchanges [] pairs).length = 2 * (k + 5) := by
  rw [append_exchanges_eq, List.nil_append]
  refine ⟨?_, ?_, rfl, ?_⟩
  · rw [window_buffer, if_pos hk, exchanges_length, hlen]
    have h10 : 2 * (k + 5) - 2 * k = 2 * 5 := by omega
    rw [h10, exchanges_drop]
  · simp [hlen]
  · rw [exchanges_length, hlen]

/-- Witness for C6 at window size 1 with 6 exchanges. -/
theorem memory_window_bound_witness :
    window_buffer 1 (append_exchanges []
      [("a", "1"), ("b", "2"), ("c", "3"), ("d", "4"), ("e", "5"),
       ("f", "6")]) =
      exchanges_to_messages [("f", "6")] ∧
    ([("a", "1"), ("b", "2"), ("c", "3"), ("d", "4"), ("e", "5"),
       ("f", "6")].drop 5).length = 1 ∧
    save_conversation_history (append_exchanges []
      [("a", "1"), ("b", "2"), ("c", "3"), ("d", "4"), ("e", "5"),
       ("f", "6")]) =
      .parsed (serializeHistory (exchanges_to_messages
        [("a", "1"), ("b", "2"), ("c", "3"), ("d", "4"), ("e", "5"),
         ("f", "6")])) ∧
    (append_exchanges []
      [("a", "1"), ("b", "2"), ("c", "3"), ("d", "4"), ("e", "5"),
       ("f", "6")]).length = 2 * (1 + 5) := by
  have h := memory_window_bound 1 (by norm_num)
    [("a", "1"), ("b", "2"), ("c", "3"), ("d", "4"), ("e", "5"),
     ("f", "6")] (by decide)
  simpa using h

/-- Counterexample to C7 as stated: with global default 5/2 and a persisted
`null` temperature, resolution returns the global default unclamped, not
`clamp(5/2) = 2`. -/
theorem temperature_clamp_counterexample :
    resolve_temperature (5/2) none [("temperature", JVal.null)] =
      .ok (5/2) ∧
    max TEMP_MIN (min TEMP_MAX (5/2 : ℚ)) = 2 ∧
    (5/2 : ℚ) ≠ 2 := by
  refine ⟨?_, ?_, ?_⟩
  · simp [resolve_temperature, assocLookup_cons, clamp_temperature]
  · norm_num [TEMP_MIN, TEMP_MAX, max_def, min_def]
  · norm_num

/-- C7 (amended): a request-supplied or persisted numeric temperature is
clamped into [0, 2] — below-range values resolve to 0, above-range to 2,
in-range values pass through — but when resolution falls back to the global
default through a persisted `null` temperature, that default is returned
unclamped. -/
theorem temperature_clamp_amended :
    (∀ (g t : ℚ) (stored : Dict),
       resolve_temperature g (some t) stored =
         .ok (max TEMP_MIN (min TEMP_MAX t))) ∧
    (∀ (g q : ℚ) (stored : Dict),
       assocLookup stored "temperature" = some (.num q) →
       resolve_temperature g none stored =
         .ok (max TEMP_MIN (min TEMP_MAX q))) ∧
    (∀ (g : ℚ) (stored : Dict),
       assocLookup stored "temperature" = some .null →
       resolve_temperature g none stored = .ok g) ∧
    (∀ t : ℚ, t < 0 → max TEMP_MIN (min TEMP_MAX t) = 0) ∧
    (∀ t : ℚ, 2 < t → max TEMP_MIN (min TEMP_MAX t) = 2) ∧
    (∀ t : ℚ, 0 ≤ t → t ≤ 2 → max TEMP_MIN (min TEMP_MAX t) = t) := by
  refine ⟨?_, ?_, ?_, ?_, ?_, ?_⟩
  · intro g t stored
    simp [resolve_temperature, clamp_temperature]
  · intro g q stored hq
    simp [resolve_temperature, hq, clamp_temperature]
  · intro g stored hq
    simp [resolve_temperature, hq, clamp_temperature]
  · intro t ht
    rw [TEMP_MIN, TEMP_MAX, min_eq_right (by linarith), max_eq_left
      (by linarith)]
  · intro t ht
    rw [TEMP_MIN, TEMP_MAX, min_eq_left (by linarith), max_eq_right
      (by linarith)]
  · intro t h0 h2
    rw [TEMP_MIN, TEMP_MAX, min_eq_right h2, max_eq_right h0]

/-- Witness for the amended C7 at concrete below-range, above-range and
in-range temperatures. -/
theorem temperature_clamp_amended_witness :
    resolve_temperature (7/10) (some (-1)) [] =
      .ok (max TEMP_MIN (min TEMP_MAX (-1 : ℚ))) ∧
    max TEMP_MIN (min TEMP_MAX (-1 : ℚ)) = 0 ∧
    max TEMP_MIN (min TEMP_MAX (5/2 : ℚ)) = 2 ∧
    max TEMP_MIN (min TEMP_MAX (3/2 : ℚ)) = 3/2 ∧
    resolve_temperature (7/10) none [("temperature", JVal.null)] =
      .ok (7/10) :=
  ⟨temperature_clamp_amended.1 (7/10) (-1) [],
   temperature_clamp_amended.2.2.2.1 (-1) (by norm_num),
   temperature_clamp_amended.2.2.2.2.1 (5/2) (by norm_num),
   temperature_clamp_amended.2.2.2.2.2 (3/2) (by norm_num) (by norm_num),
   temperature_clamp_amended.2.2.1 (7/10) [("temperature", JVal.null)] rfl⟩

/-- C8: saving a transcript and loading it back yields exactly the same
non-empty sequence of turns, with roles and contents preserved in order. -/
theorem save_load_roundtrip (T : List Message) (_hne : T ≠ []) :
    load_conversation_history (some (save_conversation_history T)) =
      some T := by
  simp [load_conversation_history, save_conversation_history,
    reconstruct_serialize]

/-- Witness for C8 at a concrete two-turn transcript. -/
theorem save_load_roundtrip_witness :
    ([Message.human "hi", Message.ai "yo"] ≠ ([] : List Message)) ∧
    load_conversation_history (some (save_conversation_history
      [Message.human "hi", Message.ai "yo"])) =
      some [Message.human "hi", Message.ai "yo"] :=
  ⟨by decide, save_load_roundtrip _ (by decide)⟩

/-- C9: deleting a conversation with neither a config directory nor a
history file is a 404 that leaves the state unchanged; deleting one that
has only a config directory, or only a history file, succeeds. -/
theorem delete_conversation_artifacts :
    (∀ (st : ServerState) (cid : String),
       assocLookup st.configFiles cid = none →
       assocLookup st.historyFiles cid = none →
       delete_conversation st cid = (st, .error ())) ∧
    (∀ (st : ServerState) (cid : String),
       (assocLookup st.configFiles cid).isSome →
       assocLookup st.historyFiles cid = none →
       (delete_conversation st cid).2 = .ok ()) ∧
    (∀ (st : ServerState) (cid : String),
       assocLookup st.configFiles cid = none →
       (assocLookup st.historyFiles cid).isSome →
       (delete_conversation st cid).2 = .ok ()) := by
  refine ⟨?_, ?_, ?_⟩
  · intro st cid h1 h2
    simp [delete_conversation, h1, h2]
  · intro st cid h1 h2
    simp [delete_conversation, h1, h2, apply_ite Prod.snd]
  · intro st cid h1 h2
    simp [delete_conversation, h1, h2, apply_ite Prod.snd]

/-- Witness for C9 at concrete one-artifact and zero-artifact states. -/
theorem delete_conversation_artifacts_witness :
    delete_conversation ⟨[], [], []⟩ "c9" = (⟨[], [], []⟩, .error ()) ∧
    (delete_conversation
      ⟨[], [], [("c9", FsFile.parsed [])]⟩ "c9").2 = .ok () ∧
    (delete_conversation
      ⟨[], [("c9", FsFile.parsed [])], []⟩ "c9").2 = .ok () :=
  ⟨delete_conversation_artifacts.1 ⟨[], [], []⟩ "c9" rfl rfl,
   delete_conversation_artifacts.2.1 ⟨[], [], [("c9", FsFile.parsed [])]⟩
     "c9" (by decide) rfl,
   delete_conversation_artifacts.2.2 ⟨[], [("c9", FsFile.parsed [])], []⟩
     "c9" rfl (by decide)⟩

/-- C10: the post-chat timestamp update never changes a value already
present in the (well-formed) config file; the in-flight values only fill
keys that were absent; the only key unconditionally overwritten is
`last_message_time`. -/
theorem timestamp_update_preserves_config (now : ℚ) (st : ServerState)
    (cid : String) (model : JVal) (directive : Option JVal) (temp : ℚ)
    (d : Dict) (hfile : assocLookup st.configFiles cid = some (.parsed d)) :
    ∃ merged,
      assocLookup (update_conversation_timestamp now st cid model directive
        temp).configFiles cid = some (.parsed merged) ∧
      assocLookup merged "last_message_time" = some (.num now) ∧
      (∀ k v, k ≠ "last_message_time" → assocLookup d k = some v →
        assocLookup merged k = some v) ∧
      (assocLookup d "temperature" = none →
        assocLookup merged "temperature" = some (.num temp)) ∧
      (assocLookup d "model_name" = none →
        assocLookup merged "model_name" = some model) := by
  refine ⟨assocSet (dict_update
      [("conversation_id", JVal.str cid), ("model_name", model),
       ("system_directive",
         match directive with
         | some v => v
         | none => JVal.null),
       ("temperature", JVal.num temp)] d)
    "last_message_time" (JVal.num now), ?_, ?_, ?_, ?_, ?_⟩
  · simp only [update_conversation_timestamp, hfile]
    exact assocLookup_set_self _ _ _
  · exact assocLookup_set_self _ _ _
  · intro k v hk hv
    rw [assocLookup_set_ne _ _ _ _ hk, dict_update, assocLookup_append, hv]
  · intro hnone
    rw [assocLookup_set_ne _ _ _ _ (by decide), dict_update,
      assocLookup_append, hnone]
    simp [assocLookup_cons]
  · intro hnone
    rw [assocLookup_set_ne _ _ _ _ (by decide), dict_update,
      assocLookup_append, hnone]
    simp [assocLookup_cons]

/-- Witness for C10 at a concrete stored config whose persisted temperature
differs from the in-flight one. -/
theorem timestamp_update_preserves_config_witness :
    ∃ merged,
      assocLookup (update_conversation_timestamp 111
        ⟨[], [], [("c1", FsFile.parsed [("temperature", JVal.num 1)])]⟩
        "c1" (JVal.str "m") none (3/2)).configFiles "c1" =
          some (.parsed merged) ∧
      assocLookup merged "last_message_time" = some (.num 111) ∧
      (∀ k v, k ≠ "last_message_time" →
        assocLookup [("temperature", JVal.num 1)] k = some v →
        assocLookup merged k = some v) ∧
      (assocLookup [("temperature", JVal.num 1)] "temperature" = none →
        assocLookup merged "temperature" = some (.num (3/2))) ∧
      (assocLookup [("temperature", JVal.num 1)] "model_name" = none →
        assocLookup merged "model_name" = some (JVal.str "m")) :=
  timestamp_update_preserves_config 111
    ⟨[], [], [("c1", FsFile.parsed [("temperature", JVal.num 1)])]⟩
    "c1" (JVal.str "m") none (3/2) [("temperature", JVal.num 1)] rfl

end TSAssistant
